import Mathlib

/-!
Verification of the service worker generated by vite-plugin-offline-first
(src/packages/vite-plugin-offline-first/src/index.ts).

The plugin emits a service worker script (generateServiceWorker) bound to a
hashed cache namespace, a precache list, an update-check flag and an update
event name. The worker handles four events: install, activate, fetch and
message. This file embeds the worker handlers and the relevant plugin-level
logic as executable Lean definitions and proves or refutes the frozen claims
about them.

Modelling conventions:
- A Response carries status, the response type string (the field response.type
  of the platform, which is the string "opaque" for cross-origin opaque
  responses) and a body.
- A Request carries method, the protocol string produced by
  new URL(request.url).protocol (including the trailing colon), the url used
  as cache key, and the request mode string ("navigate" for top-level loads).
- The cache storage of the origin is an ordered association list from cache
  names to caches; a cache is an ordered association list from url keys to
  responses. Order models creation order, which is the order caches.match
  consults caches in.
- Network fetch is modelled as a function from url to Option Response; none
  models a rejected fetch (offline, DNS failure, timeout).
- Side effects other than cache mutation (skipWaiting, clients.claim,
  client.postMessage) are modelled as an action trace returned by a handler.
-/

namespace OfflineFirst

/-- The response type string of the platform Response object; the value
"opaque" marks cross-origin opaque responses (field rtype models the source
expression networkResponse.type at index.ts line 193). -/
structure Response where
  status : Nat
  rtype : String
  body : String
deriving DecidableEq

/-- A request as seen by the fetch handler: method, the protocol component of
new URL(request.url) including the trailing colon, the full url (used as the
cache key) and the request mode string. -/
structure Request where
  method : String
  protocol : String
  url : String
  mode : String
deriving DecidableEq

/-- One cache: an ordered mapping from request urls to stored responses. -/
abbrev Cache := List (String × Response)

/-- The cache storage of the origin: an ordered mapping from cache names to
caches, in creation order. -/
abbrev CacheStorage := List (String × Cache)

/-- The constants block injected at the top of the generated worker
(index.ts lines 127 to 130). -/
structure SWConfig where
  cacheName : String
  precacheAssets : List String
  enableUpdateCheck : Bool
  updateEventName : String
deriving DecidableEq

/-- Side effects of a worker handler other than cache mutation:
self.skipWaiting(), self.clients.claim(), and client.postMessage of a message
with the given type tag. -/
inductive SWAction where
  | skipWaiting : SWAction
  | claimClients : SWAction
  | postMessage : String → SWAction
deriving DecidableEq

/-- The data of an inbound message event; the source only ever inspects
event.data.type (index.ts line 232). -/
structure MessageData where
  type : String
deriving DecidableEq

/-- String.prototype.startsWith of the source (index.ts line 179), over the
underlying character lists. -/
def charsStartWith : List Char → List Char → Bool
  | _, [] => true
  | [], _ :: _ => false
  | a :: as, b :: bs => a = b && charsStartWith as bs

/-- url.protocol.startsWith(p) from the source, on Lean strings. -/
def strStartsWith (s p : String) : Bool :=
  charsStartWith s.data p.data

/-- Keys (names) of all caches in the storage: caches.keys()
(index.ts line 159). -/
def cachesKeys (s : CacheStorage) : List String :=
  s.map Prod.fst

/-- caches.delete(name) (index.ts line 164): removes the cache with the given
name; removing an absent name leaves the storage unchanged (the platform call
resolves with false, not an error). -/
def cachesDelete (name : String) (s : CacheStorage) : CacheStorage :=
  s.filter (fun c => c.1 != name)

/-- cache.put(key, resp) within one cache: overwrite the entry for the key if
present, append it otherwise. -/
def cachePutEntry (key : String) (resp : Response) : Cache → Cache
  | [] => [(key, resp)]
  | e :: rest => if e.1 = key then (key, resp) :: rest else e :: cachePutEntry key resp rest

/-- cache.match(key) within one cache: first stored response for the key. -/
def cacheMatchEntry (key : String) : Cache → Option Response
  | [] => none
  | e :: rest => if e.1 = key then some e.2 else cacheMatchEntry key rest

/-- caches.open(CACHE_NAME) followed by cache.put(request, resp)
(index.ts lines 199 to 201): writes into the named cache, creating it at the
end of the storage when absent (caches.open creates missing caches). -/
def cachesOpenPut (name key : String) (resp : Response) : CacheStorage → CacheStorage
  | [] => [(name, [(key, resp)])]
  | c :: rest =>
    if c.1 = name then (c.1, cachePutEntry key resp c.2) :: rest
    else c :: cachesOpenPut name key resp rest

/-- caches.match(key) (index.ts lines 207 and 215): storage-wide lookup that
consults every cache of the origin in creation order, not only the active
namespace. -/
def cachesMatch (key : String) : CacheStorage → Option Response
  | [] => none
  | c :: rest =>
    match cacheMatchEntry key c.2 with
    | some r => some r
    | none => cachesMatch key rest

/-- Lookup restricted to the single cache with the given name; none when that
cache is absent or has no entry for the key. Used to state namespace scoping
properties. -/
def cacheLookup (name key : String) : CacheStorage → Option Response
  | [] => none
  | c :: rest => if c.1 = name then cacheMatchEntry key c.2 else cacheLookup name key rest

/-- caches.open(name) alone: ensures the named cache exists, creating an
empty one at the end of the storage when absent. -/
def cachesOpen (name : String) (s : CacheStorage) : CacheStorage :=
  if (cachesKeys s).contains name then s else s ++ [(name, [])]

/-- Contents of the named cache, empty when absent. -/
def getCache (name : String) : CacheStorage → Cache
  | [] => []
  | c :: rest => if c.1 = name then c.2 else getCache name rest

/-- Replace the contents of the named cache. -/
def setCache (name : String) (nc : Cache) : CacheStorage → CacheStorage
  | [] => []
  | c :: rest => if c.1 = name then (c.1, nc) :: rest else c :: setCache name nc rest

/-- Response.ok of the platform: status in the range 200 to 299. The platform
call cache.addAll rejects when a fetched response is not ok. -/
def responseOk (r : Response) : Bool :=
  200 ≤ r.status && r.status ≤ 299

/-- cache.addAll(PRECACHE_ASSETS) (index.ts line 149): fetch every asset and
store it; the whole operation rejects (returns none) when any fetch rejects
or yields a response that is not ok. -/
def cacheAddAll (network : String → Option Response) : List String → Cache → Option Cache
  | [], c => some c
  | a :: rest, c =>
    match network a with
    | none => none
    | some r => if responseOk r then cacheAddAll network rest (cachePutEntry a r c) else none

/-- The precache step queued by event.waitUntil in the install handler
(index.ts lines 146 to 151): caches.open(CACHE_NAME) then
cache.addAll(PRECACHE_ASSETS); none models a rejected install. -/
def installPrecache (cfg : SWConfig) (network : String → Option Response)
    (s : CacheStorage) : Option CacheStorage :=
  let s1 := cachesOpen cfg.cacheName s
  match cacheAddAll network cfg.precacheAssets (getCache cfg.cacheName s1) with
  | none => none
  | some c => some (setCache cfg.cacheName c s1)

/-- The install event handler (index.ts lines 144 to 153): queues the precache
via event.waitUntil and calls self.skipWaiting() synchronously in the handler
body, outside the waitUntil chain, hence regardless of the precache outcome.
The first component is the precache result (none = install failure), the
second the action trace of the handler body. -/
def installHandler (cfg : SWConfig) (network : String → Option Response)
    (s : CacheStorage) : Option CacheStorage × List SWAction :=
  (installPrecache cfg network s, [SWAction.skipWaiting])

/-- One iteration of the activate cleanup loop (index.ts lines 161 to 166):
caches.delete(name) when name differs from CACHE_NAME, no effect otherwise. -/
def activateStep (cn : String) (acc : CacheStorage) (name : String) : CacheStorage :=
  if name ≠ cn then cachesDelete name acc else acc

/-- The cache cleanup of the activate handler (index.ts lines 158 to 169):
enumerate caches.keys() and delete every name that differs from CACHE_NAME.
The deletions run under Promise.all; since each targets a distinct name their
aggregate effect equals this sequential fold. -/
def activateCaches (cn : String) (s : CacheStorage) : CacheStorage :=
  (cachesKeys s).foldl (activateStep cn) s

/-- The activate event handler (index.ts lines 156 to 171): cache cleanup then
self.clients.claim(). -/
def activateHandler (cfg : SWConfig) (s : CacheStorage) : CacheStorage × List SWAction :=
  (activateCaches cfg.cacheName s, [SWAction.claimClients])

/-- The synthesized offline fallback response (index.ts lines 222 to 225). -/
def offlineFallback : Response :=
  { status := 503, rtype := "basic", body := "Offline - Resource not found" }

/-- The fulfilled branch of the fetch handler (index.ts lines 186 to 204):
return the network response unmodified; additionally store a clone under
CACHE_NAME keyed by the request when the status is exactly 200 and the
response type is not "opaque". (The null check on networkResponse at line 188
cannot fire in this model: a fulfilled fetch always carries a response.) -/
def fetchOnSuccess (cfg : SWConfig) (req : Request) (networkResponse : Response)
    (s : CacheStorage) : Response × CacheStorage :=
  if networkResponse.status != 200 then (networkResponse, s)
  else if networkResponse.rtype == "opaque" then (networkResponse, s)
  else (networkResponse, cachesOpenPut cfg.cacheName req.url networkResponse s)

/-- The rejected branch of the fetch handler (index.ts lines 205 to 226):
storage-wide caches.match on the request, then for navigation requests a
storage-wide caches.match on "/index.html", then the synthesized 503. -/
def fetchOnFailure (req : Request) (s : CacheStorage) : Response :=
  match cachesMatch req.url s with
  | some cached => cached
  | none =>
    if req.mode = "navigate" then
      match cachesMatch "/index.html" s with
      | some idx => idx
      | none => offlineFallback
    else offlineFallback

/-- The fetch event handler (index.ts lines 174 to 228). The network argument
models the outcome of fetch(request): some = fulfilled, none = rejected. The
first component is the response passed to event.respondWith, or none when the
handler returns early without intercepting (method other than GET, or a
protocol that does not start with "http"). -/
def fetchHandler (cfg : SWConfig) (req : Request) (network : Option Response)
    (s : CacheStorage) : Option Response × CacheStorage :=
  if req.method != "GET" || !(strStartsWith req.protocol "http") then (none, s)
  else
    match network with
    | some networkResponse =>
      let rs := fetchOnSuccess cfg req networkResponse s
      (some rs.1, rs.2)
    | none => (some (fetchOnFailure req s), s)

/-- The message event handler (index.ts lines 231 to 235): acts only when
event.data exists and event.data.type equals "SKIP_WAITING"; every other
message is ignored. The handler touches no cache and posts no message; its
whole observable effect is the returned action trace. -/
def messageHandler (data : Option MessageData) : List SWAction :=
  match data with
  | some d => if d.type = "SKIP_WAITING" then [SWAction.skipWaiting] else []
  | none => []

/-- notifyClients(message) (index.ts lines 137 to 141): post the message to
every controlled client. The clients argument models the result of
clients.matchAll. This primitive is defined in the generated worker but no
handler of the worker ever invokes it. -/
def notifyClients (msgType : String) (controlledClients : List Nat) : List SWAction :=
  controlledClients.map (fun _ => SWAction.postMessage msgType)

/-- The plugin options with their defaults (index.ts lines 29 to 34). -/
structure OfflineFirstOptions where
  cacheName : String := "offline-app-cache"
  precacheAssets : List String := ["/index.html"]
  enableUpdateCheck : Bool := true
  updateEventName : String := "offline-first:update"
deriving DecidableEq

/-- The hashed cache namespace, cacheName dash buildHash
(index.ts lines 44 and 67). -/
def hashedCacheName (cacheName buildHash : String) : String :=
  cacheName ++ "-" ++ buildHash

/-- The worker constants block produced for a build (index.ts lines 70 to 75
feeding lines 127 to 130). -/
def swConfigOf (opts : OfflineFirstOptions) (buildHash : String) : SWConfig :=
  { cacheName := hashedCacheName opts.cacheName buildHash
    precacheAssets := opts.precacheAssets
    enableUpdateCheck := opts.enableUpdateCheck
    updateEventName := opts.updateEventName }

/-- File names emitted by the generateBundle hook (index.ts lines 64 to 91):
it always emits sw.js and then sw-update-check.js; neither emitFile call is
conditioned on any option. -/
def generateBundleEmittedFiles (_ : OfflineFirstOptions) : List String :=
  ["sw.js", "sw-update-check.js"]

/-! Concrete inputs used by witnesses and counterexamples. -/

/-- Worker constants of end-to-end scenario 1: base name app, generation g1. -/
def cfgEx : SWConfig :=
  { cacheName := "app-g1"
    precacheAssets := ["/index.html"]
    enableUpdateCheck := true
    updateEventName := "offline-first:update" }

/-- A 200 response for a page. -/
def pageResp : Response := { status := 200, rtype := "basic", body := "<html>" }

/-- A 200 response for a data resource. -/
def respOk : Response := { status := 200, rtype := "basic", body := "hello" }

/-- A response sitting in a stale cache generation. -/
def staleResp : Response := { status := 200, rtype := "basic", body := "stale" }

/-- A network that serves only /index.html. -/
def netOk : String → Option Response :=
  fun u => if u = "/index.html" then some pageResp else none

/-- A network where every fetch rejects. -/
def netFail : String → Option Response :=
  fun _ => none

/-- A GET request over https. -/
def reqGet : Request :=
  { method := "GET", protocol := "https:", url := "/data.json", mode := "no-cors" }

/-- A GET request whose scheme is httpx, which is neither http nor https yet
starts with the string http. -/
def reqHttpx : Request :=
  { method := "GET", protocol := "httpx:", url := "httpx://host/x", mode := "no-cors" }

/-- A POST request over https. -/
def reqPost : Request :=
  { method := "POST", protocol := "https:", url := "/x", mode := "no-cors" }

/-- A navigation GET request for a url that is not cached. -/
def reqNav : Request :=
  { method := "GET", protocol := "https:", url := "/missing", mode := "navigate" }

/-- A GET request for /foo over https. -/
def reqFoo : Request :=
  { method := "GET", protocol := "https:", url := "/foo", mode := "no-cors" }

/-- Storage holding only a stale generation with an entry for /foo; the active
namespace app-g1 has no cache at all. -/
def staleStorage : CacheStorage := [("app-g0", [("/foo", staleResp)])]

/-- Storage holding only the active namespace with the precached root page. -/
def sIndexOnly : CacheStorage := [("app-g1", [("/index.html", pageResp)])]

/-- Storage with one stale generation, the active generation and a cache of a
foreign origin-sharing library. -/
def sDirty : CacheStorage := [("app-g0", []), ("app-g1", []), ("other", [])]

/-! Helper lemmas about the cache storage operations. -/

theorem cacheMatchEntry_cachePutEntry_self (key : String) (r : Response) (c : Cache) :
    cacheMatchEntry key (cachePutEntry key r c) = some r := by
  induction c with
  | nil => simp [cachePutEntry, cacheMatchEntry]
  | cons e rest ih =>
    by_cases h : e.1 = key
    · simp [cachePutEntry, cacheMatchEntry, h]
    · simp [cachePutEntry, cacheMatchEntry, h, ih]

theorem cacheLookup_cachesOpenPut_self (name key : String) (r : Response) (s : CacheStorage) :
    cacheLookup name key (cachesOpenPut name key r s) = some r := by
  induction s with
  | nil => simp [cachesOpenPut, cacheLookup, cacheMatchEntry]
  | cons c rest ih =>
    by_cases h : c.1 = name
    · simp [cachesOpenPut, cacheLookup, h, cacheMatchEntry_cachePutEntry_self]
    · simp [cachesOpenPut, cacheLookup, h, ih]

theorem cacheLookup_cachesOpenPut_other (name key cn k : String) (r : Response)
    (s : CacheStorage) (h : name ≠ cn) :
    cacheLookup name key (cachesOpenPut cn k r s) = cacheLookup name key s := by
  induction s with
  | nil => simp [cachesOpenPut, cacheLookup, Ne.symm h]
  | cons c rest ih =>
    by_cases h2 : c.1 = cn
    · have h3 : c.1 ≠ name := by rw [h2]; exact Ne.symm h
      simp [cachesOpenPut, cacheLookup, h2, h3, Ne.symm h]
    · by_cases h3 : c.1 = name
      · simp [cachesOpenPut, cacheLookup, h2, h3, h]
      · simp [cachesOpenPut, cacheLookup, h2, h3, ih]

theorem bool_or_not_or (x y : Bool) : (x || !(x || y)) = (x || !y) := by
  cases x <;> cases y <;> rfl

theorem bool_del_merge (x y z : Bool) (hxy : x = true → y = false) :
    ((x || !z) && !y) = (x || !(y || z)) := by
  cases x with
  | false => cases y <;> cases z <;> rfl
  | true => rw [hxy rfl]; cases z <;> rfl

theorem foldl_activateStep_eq (cn : String) (l : List String) (s : CacheStorage) :
    l.foldl (activateStep cn) s
      = s.filter (fun c => c.1 == cn || !(l.contains c.1)) := by
  induction l generalizing s with
  | nil =>
    simp [List.foldl]
  | cons a t ih =>
    rw [List.foldl_cons, ih]
    by_cases h : a = cn
    · have hs : activateStep cn s a = s := by simp [activateStep, h]
      rw [hs]
      apply List.filter_congr
      intro c _
      rw [List.contains_cons]
      subst h
      exact (bool_or_not_or (c.1 == a) (t.contains c.1)).symm
    · have hs : activateStep cn s a = cachesDelete a s := by simp [activateStep, h]
      rw [hs]
      unfold cachesDelete
      rw [List.filter_filter]
      apply List.filter_congr
      intro c _
      rw [List.contains_cons]
      have hb : (c.1 != a) = !(c.1 == a) := rfl
      rw [hb]
      apply bool_del_merge
      intro hx
      have hcn : c.1 = cn := beq_iff_eq.mp hx
      exact beq_eq_false_iff_ne.mpr (fun hy => h (hy.symm.trans hcn))

theorem activateCaches_eq_filter (cn : String) (s : CacheStorage) :
    activateCaches cn s = s.filter (fun c => c.1 == cn) := by
  unfold activateCaches
  rw [foldl_activateStep_eq]
  apply List.filter_congr
  intro c hc
  have hmem : c.1 ∈ cachesKeys s := List.mem_map_of_mem Prod.fst hc
  have hcont : (cachesKeys s).contains c.1 = true :=
    List.elem_eq_true_of_mem hmem
  rw [hcont]
  cases hx : (c.1 == cn) <;> rfl

theorem cacheAddAll_none_of_fail (network : String → Option Response)
    (assets : List String) (c : Cache) (a : String)
    (ha : a ∈ assets) (hf : network a = none) :
    cacheAddAll network assets c = none := by
  induction assets generalizing c with
  | nil => cases ha
  | cons b rest ih =>
    rcases List.mem_cons.mp ha with h | h
    · subst h
      simp [cacheAddAll, hf]
    · cases hn : network b with
      | none => simp [cacheAddAll, hn]
      | some r =>
        by_cases hok : responseOk r = true
        · simp [cacheAddAll, hn, hok, ih _ h]
        · simp [cacheAddAll, hn, hok]

theorem fetchOnSuccess_fst (cfg : SWConfig) (req : Request) (r : Response) (s : CacheStorage) :
    (fetchOnSuccess cfg req r s).1 = r := by
  unfold fetchOnSuccess
  split
  · rfl
  · split <;> rfl

theorem fetchOnSuccess_snd_cache (cfg : SWConfig) (req : Request) (r : Response)
    (s : CacheStorage) (h200 : r.status = 200) (hop : r.rtype ≠ "opaque") :
    (fetchOnSuccess cfg req r s).2 = cachesOpenPut cfg.cacheName req.url r s := by
  have h1 : (r.status != 200) = false := by rw [h200]; rfl
  have h2 : (r.rtype == "opaque") = false := beq_eq_false_iff_ne.mpr hop
  simp only [fetchOnSuccess, h1, h2, Bool.false_eq_true, if_false]

theorem fetchOnSuccess_snd_id (cfg : SWConfig) (req : Request) (r : Response)
    (s : CacheStorage) (h : r.status ≠ 200 ∨ r.rtype = "opaque") :
    (fetchOnSuccess cfg req r s).2 = s := by
  unfold fetchOnSuccess
  rcases h with h | h
  · rw [if_pos (bne_iff_ne.mpr h)]
  · by_cases h1 : (r.status != 200) = true
    · rw [if_pos h1]
    · rw [if_neg h1, if_pos (beq_iff_eq.mpr h)]

theorem fetchHandler_guard_false (req : Request)
    (hm : req.method = "GET") (hp : strStartsWith req.protocol "http" = true) :
    (req.method != "GET" || !(strStartsWith req.protocol "http")) = false := by
  rw [hm, hp]; rfl

/-- Claim C1: for an intercepted GET request whose network fetch succeeds, the
fetch handler returns the network response unmodified, and a copy is stored in
the active namespace cache keyed by the request if and only if the status is
exactly 200 and the response is not opaque; for a non-200 or opaque response
the storage is left unchanged. -/
theorem c1_success_return_and_cache (cfg : SWConfig) (req : Request) (resp : Response)
    (s : CacheStorage) (hm : req.method = "GET")
    (hp : strStartsWith req.protocol "http" = true) :
    (fetchHandler cfg req (some resp) s).1 = some resp ∧
    (resp.status = 200 → resp.rtype ≠ "opaque" →
      (fetchHandler cfg req (some resp) s).2 = cachesOpenPut cfg.cacheName req.url resp s ∧
      cacheLookup cfg.cacheName req.url (fetchHandler cfg req (some resp) s).2 = some resp) ∧
    ((resp.status ≠ 200 ∨ resp.rtype = "opaque") →
      (fetchHandler cfg req (some resp) s).2 = s) := by
  have hg := fetchHandler_guard_false req hm hp
  simp only [fetchHandler, hg, Bool.false_eq_true, if_false]
  refine ⟨by simp [fetchOnSuccess_fst], ?_, ?_⟩
  · intro h200 hop
    have hc := fetchOnSuccess_snd_cache cfg req resp s h200 hop
    exact ⟨hc, by rw [hc]; exact cacheLookup_cachesOpenPut_self _ _ _ _⟩
  · intro h
    exact fetchOnSuccess_snd_id cfg req resp s h

/-- Witness for C1: a concrete GET request over https whose 200 response is
returned and lands in the active namespace cache. -/
theorem c1_success_return_and_cache_witness :
    (fetchHandler cfgEx reqGet (some respOk) []).1 = some respOk ∧
    cacheLookup "app-g1" "/data.json" (fetchHandler cfgEx reqGet (some respOk) []).2
      = some respOk := by
  have h := c1_success_return_and_cache cfgEx reqGet respOk [] rfl (by decide)
  exact ⟨h.1, (h.2.1 rfl (by decide)).2⟩

/-- Claim C2: for an intercepted GET request whose network fetch rejects, the
handler answers with the first available of the cached entry for the request,
then for navigation requests the cached root document, then a synthesized 503;
it always returns a response and never mutates the storage on this path. -/
theorem c2_failure_fallback_chain (cfg : SWConfig) (req : Request) (s : CacheStorage)
    (hm : req.method = "GET") (hp : strStartsWith req.protocol "http" = true) :
    (∃ r, (fetchHandler cfg req none s).1 = some r) ∧
    (∀ c, cachesMatch req.url s = some c → (fetchHandler cfg req none s).1 = some c) ∧
    (cachesMatch req.url s = none → req.mode = "navigate" →
      ∀ i, cachesMatch "/index.html" s = some i → (fetchHandler cfg req none s).1 = some i) ∧
    (cachesMatch req.url s = none → req.mode ≠ "navigate" →
      (fetchHandler cfg req none s).1 = some offlineFallback) ∧
    (cachesMatch req.url s = none → cachesMatch "/index.html" s = none →
      (fetchHandler cfg req none s).1 = some offlineFallback) ∧
    offlineFallback.status = 503 ∧
    (fetchHandler cfg req none s).2 = s := by
  have hg := fetchHandler_guard_false req hm hp
  simp only [fetchHandler, hg, Bool.false_eq_true, if_false]
  refine ⟨⟨fetchOnFailure req s, rfl⟩, ?_, ?_, ?_, ?_, rfl, by trivial⟩
  · intro c hmatch
    simp [fetchOnFailure, hmatch]
  · intro hnone hnav i hidx
    simp [fetchOnFailure, hnone, hnav, hidx]
  · intro hnone hnav
    simp [fetchOnFailure, hnone, hnav]
  · intro hnone hidx
    by_cases hnav : req.mode = "navigate"
    · simp [fetchOnFailure, hnone, hnav, hidx]
    · simp [fetchOnFailure, hnone, hnav]

/-- Witness for C2: offline navigation to an uncached url with the root page
precached is answered with the cached root page. -/
theorem c2_failure_fallback_chain_witness :
    (fetchHandler cfgEx reqNav none sIndexOnly).1 = some pageResp := by
  have h := c2_failure_fallback_chain cfgEx reqNav sIndexOnly rfl (by decide)
  exact h.2.2.1 (by decide) rfl pageResp (by decide)

/-- Claim C3: the activate handler deletes exactly the caches whose name
differs from the active namespace, so afterwards every remaining cache is the
active one; deleting an absent namespace is a no-op, and re-running activation
on an already clean storage changes nothing. -/
theorem c3_activate_cleanup (cfg : SWConfig) (s : CacheStorage) :
    (activateHandler cfg s).1 = s.filter (fun c => c.1 == cfg.cacheName) ∧
    (∀ c ∈ (activateHandler cfg s).1, c.1 = cfg.cacheName) ∧
    (activateHandler cfg (activateHandler cfg s).1).1 = (activateHandler cfg s).1 ∧
    (∀ name, name ∉ cachesKeys s → cachesDelete name s = s) ∧
    ((∀ c ∈ s, c.1 = cfg.cacheName) → (activateHandler cfg s).1 = s) := by
  have hchar : ∀ t : CacheStorage,
      (activateHandler cfg t).1 = t.filter (fun c => c.1 == cfg.cacheName) :=
    fun t => activateCaches_eq_filter cfg.cacheName t
  refine ⟨hchar s, ?_, ?_, ?_, ?_⟩
  · intro c hc
    rw [hchar s] at hc
    exact beq_iff_eq.mp (List.mem_filter.mp hc).2
  · rw [hchar ((activateHandler cfg s).1), hchar s]
    apply List.filter_eq_self.mpr
    intro c hc
    exact (List.mem_filter.mp hc).2
  · intro name hname
    unfold cachesDelete
    apply List.filter_eq_self.mpr
    intro c hc
    have hmem : c.1 ∈ cachesKeys s := List.mem_map_of_mem Prod.fst hc
    exact bne_iff_ne.mpr (fun he => hname (he ▸ hmem))
  · intro hall
    rw [hchar s]
    apply List.filter_eq_self.mpr
    intro c hc
    exact beq_iff_eq.mpr (hall c hc)

/-- Witness for C3: activating over a dirty storage keeps exactly the active
namespace, and deleting an absent namespace leaves the storage unchanged. -/
theorem c3_activate_cleanup_witness :
    (activateHandler cfgEx sDirty).1 = [("app-g1", ([] : Cache))] ∧
    cachesDelete "gone" sDirty = sDirty := by
  have h := c3_activate_cleanup cfgEx sDirty
  constructor
  · rw [h.1]; decide
  · exact h.2.2.2.1 "gone" (by decide)

/-- Claim C4: installation fails whenever the fetch of any precache asset
fails, and after a successful install with base name app, generation g1 and
the default precache list the namespace app-g1 holds exactly the single entry
for /index.html. -/
theorem c4_install_completeness :
    (∀ (cfg : SWConfig) (network : String → Option Response) (s : CacheStorage)
      (a : String), a ∈ cfg.precacheAssets → network a = none →
      (installHandler cfg network s).1 = none) ∧
    (swConfigOf { cacheName := "app" } "g1").cacheName = "app-g1" ∧
    (installHandler (swConfigOf { cacheName := "app" } "g1") netOk []).1
      = some [("app-g1", [("/index.html", pageResp)])] := by
  refine ⟨?_, rfl, by decide⟩
  intro cfg network s a ha hf
  have h := cacheAddAll_none_of_fail network cfg.precacheAssets
    (getCache cfg.cacheName (cachesOpen cfg.cacheName s)) a ha hf
  simp only [installHandler, installPrecache, h]

/-- Witness for C4: with a failing network the install of scenario 1 is not
reported successful. -/
theorem c4_install_completeness_witness :
    (installHandler (swConfigOf { cacheName := "app" } "g1") netFail []).1 = none := by
  have h := c4_install_completeness
  exact h.1 _ netFail [] "/index.html" (by decide) rfl

/-- Counterexample for C5: a GET request with the scheme httpx, which is
neither http nor https, is nevertheless intercepted and even cached, because
the source only tests that the protocol string starts with http. -/
theorem c5_counterexample_httpx_intercepted :
    reqHttpx.method = "GET" ∧
    reqHttpx.protocol ≠ "http:" ∧ reqHttpx.protocol ≠ "https:" ∧
    (fetchHandler cfgEx reqHttpx (some respOk) []).1 = some respOk ∧
    (fetchHandler cfgEx reqHttpx (some respOk) []).2
      = [("app-g1", [("httpx://host/x", respOk)])] := by
  decide

/-- Claim C5 amended: every request whose method is not GET or whose protocol
string does not start with http passes through untouched, with no response
substituted and the storage unmodified; schemes other than http and https that
merely begin with the letters http are still intercepted. -/
theorem c5_amended_passthrough (cfg : SWConfig) (req : Request)
    (network : Option Response) (s : CacheStorage)
    (h : req.method ≠ "GET" ∨ strStartsWith req.protocol "http" = false) :
    fetchHandler cfg req network s = (none, s) := by
  have hg : (req.method != "GET" || !(strStartsWith req.protocol "http")) = true := by
    rcases h with h | h
    · simp [bne_iff_ne.mpr h]
    · simp [h]
  simp [fetchHandler, hg]

/-- Witness for C5 amended: a POST request passes through untouched. -/
theorem c5_amended_passthrough_witness :
    fetchHandler cfgEx reqPost (some respOk) [] = (none, []) :=
  c5_amended_passthrough cfgEx reqPost (some respOk) [] (Or.inl (by decide))

/-- Counterexample for C6: with only a stale generation in storage and an
empty active namespace, the offline fallback serves the stale-namespace entry,
because caches.match searches the whole storage rather than only the active
namespace. -/
theorem c6_counterexample_stale_served :
    cfgEx.cacheName = "app-g1" ∧
    cacheLookup "app-g1" "/foo" staleStorage = none ∧
    (fetchHandler cfgEx reqFoo none staleStorage).1 = some staleResp := by
  decide

/-- Claim C6 amended: cache writes performed by the fetch handler only ever
modify the active namespace — the lookup result of every other cache name is
unchanged by the handler — while the network-failure fallback reads are
storage-wide and may serve entries of stale namespaces. -/
theorem c6_amended_write_scoping (cfg : SWConfig) (req : Request)
    (network : Option Response) (s : CacheStorage) (name key : String)
    (h : name ≠ cfg.cacheName) :
    cacheLookup name key (fetchHandler cfg req network s).2 = cacheLookup name key s := by
  unfold fetchHandler
  by_cases hg : (req.method != "GET" || !(strStartsWith req.protocol "http")) = true
  · rw [if_pos hg]
  · rw [if_neg hg]
    cases network with
    | none => rfl
    | some r =>
      show cacheLookup name key (fetchOnSuccess cfg req r s).2 = cacheLookup name key s
      by_cases h200 : r.status = 200
      · by_cases hop : r.rtype = "opaque"
        · rw [fetchOnSuccess_snd_id cfg req r s (Or.inr hop)]
        · rw [fetchOnSuccess_snd_cache cfg req r s h200 hop]
          exact cacheLookup_cachesOpenPut_other name key cfg.cacheName req.url r s h
      · rw [fetchOnSuccess_snd_id cfg req r s (Or.inl h200)]

/-- Witness for C6 amended: a successful cached fetch leaves the stale
namespace app-g0 untouched. -/
theorem c6_amended_write_scoping_witness :
    cacheLookup "app-g0" "/data.json" (fetchHandler cfgEx reqGet (some respOk) staleStorage).2
      = cacheLookup "app-g0" "/data.json" staleStorage :=
  c6_amended_write_scoping cfgEx reqGet (some respOk) staleStorage "app-g0" "/data.json"
    (by decide)

/-- Counterexample for C9: with a failing network the precache step fails, yet
the install handler has already requested skipWaiting — the promotion request
is issued synchronously in the handler body, not after successful precache. -/
theorem c9_counterexample_skip_waiting_despite_failure :
    (installHandler cfgEx netFail []).1 = none ∧
    (installHandler cfgEx netFail []).2 = [SWAction.skipWaiting] := by
  decide

/-- Claim C9 amended: the install handler requests promotion past the waiting
state unconditionally and synchronously during the install event — for every
network outcome and storage, including failing precaches — rather than only
after the precache step completes successfully. -/
theorem c9_amended_skip_waiting_unconditional (cfg : SWConfig)
    (network : String → Option Response) (s : CacheStorage) :
    (installHandler cfg network s).2 = [SWAction.skipWaiting] :=
  rfl

/-- Claim C10: the message handler ignores every inbound message whose data is
absent or whose type is not exactly SKIP_WAITING: it produces no action at
all, and it neither receives nor returns any cache storage. -/
theorem c10_message_ignores_other_types (data : Option MessageData)
    (h : ∀ m, data = some m → m.type ≠ "SKIP_WAITING") :
    messageHandler data = [] := by
  cases data with
  | none => rfl
  | some m =>
    show (if m.type = "SKIP_WAITING" then [SWAction.skipWaiting] else []) = []
    rw [if_neg (h m rfl)]

/-- Witness for C10: the CACHE_UPDATED message posted by the generated update
checker is ignored by the worker. -/
theorem c10_message_ignores_other_types_witness :
    messageHandler (some { type := "CACHE_UPDATED" }) = [] := by
  apply c10_message_ignores_other_types
  intro m hm
  cases hm
  decide

/-- Claim C7 (code bug evidence): generateBundle emits the update checker
sw-update-check.js even when enableUpdateCheck is false, the emitted file list
does not depend on the flag at all, and no worker handler depends on the
injected ENABLE_UPDATE_CHECK constant. -/
theorem c7_enable_update_check_ignored :
    (generateBundleEmittedFiles { enableUpdateCheck := false }).contains "sw-update-check.js"
      = true ∧
    generateBundleEmittedFiles { enableUpdateCheck := false }
      = generateBundleEmittedFiles { enableUpdateCheck := true } ∧
    (∀ (opts : OfflineFirstOptions) (hash : String) (req : Request)
      (network : Option Response) (s : CacheStorage),
      fetchHandler (swConfigOf opts hash) req network s
        = fetchHandler (swConfigOf { opts with enableUpdateCheck := false } hash)
            req network s) ∧
    (∀ (opts : OfflineFirstOptions) (hash : String)
      (network : String → Option Response) (s : CacheStorage),
      installHandler (swConfigOf opts hash) network s
        = installHandler (swConfigOf { opts with enableUpdateCheck := false } hash)
            network s) ∧
    (∀ (opts : OfflineFirstOptions) (hash : String) (s : CacheStorage),
      activateHandler (swConfigOf opts hash) s
        = activateHandler (swConfigOf { opts with enableUpdateCheck := false } hash) s) := by
  exact ⟨by decide, rfl, fun _ _ _ _ _ => rfl, fun _ _ _ _ => rfl, fun _ _ _ => rfl⟩

/-- Claim C8 (code bug evidence): no worker handler ever posts a message to
clients. The CACHE_UPDATED message sent by the generated update checker
produces no action, the message handler can at most request skipWaiting, the
install and activate traces contain no postMessage, and only the never-invoked
primitive notifyClients would broadcast a message to every client. -/
theorem c8_no_update_broadcast_path :
    messageHandler (some { type := "CACHE_UPDATED" }) = [] ∧
    (∀ data, messageHandler data = [] ∨ messageHandler data = [SWAction.skipWaiting]) ∧
    (∀ (cfg : SWConfig) (network : String → Option Response) (s : CacheStorage),
      (installHandler cfg network s).2 = [SWAction.skipWaiting]) ∧
    (∀ (cfg : SWConfig) (s : CacheStorage),
      (activateHandler cfg s).2 = [SWAction.claimClients]) ∧
    notifyClients "offline-first:update" [0, 1]
      = [SWAction.postMessage "offline-first:update",
         SWAction.postMessage "offline-first:update"] := by
  refine ⟨rfl, ?_, fun _ _ _ => rfl, fun _ _ => rfl, rfl⟩
  intro data
  cases data with
  | none => exact Or.inl rfl
  | some m =>
    by_cases h : m.type = "SKIP_WAITING"
    · exact Or.inr (by simp [messageHandler, h])
    · exact Or.inl (by simp [messageHandler, h])

end OfflineFirst
